import Mathlib

/-!
Shallow embedding of the auxiliary render passes of the
threejs-post-processing repository: `NormalPass` (src/passes/NormalPass.js)
and `DepthPass` (the unnamed source file), both extending the external
`Pass` base class and delegating scene drawing to a `RenderPass`.

JS numbers are modelled as rationals (`ℚ`) where arithmetic matters
(sizes, scales, alpha), `Math.floor` as `Int.floor`, and the three.js
constants (`LinearFilter`, `RGBFormat`, `RGBADepthPacking`, `Color`) as
inductive types / `Nat` color codes.  The `Pass` base class and
`RenderPass.js` are part of the repository but are not among the given
source files; the fields and behaviour they contribute are modelled from
the spec where needed and marked as such.
-/

/-- three.js texture filter constants; the sources only use `LinearFilter`,
but an externally supplied render target may carry any filter. -/
inductive TextureFilter where
  | LinearFilter
  | NearestFilter
  deriving DecidableEq, Repr

/-- three.js texture format constants; `NormalPass` requests `RGBFormat`,
`DepthPass` leaves the format at its default (`none`). -/
inductive TextureFormat where
  | RGBFormat
  | RGBAFormat
  deriving DecidableEq, Repr

/-- three.js depth packing constants; `DepthPass` uses `RGBADepthPacking`. -/
inductive DepthPacking where
  | BasicDepthPacking
  | RGBADepthPacking
  deriving DecidableEq, Repr

/-- The override materials installed by the two passes, with the options
given at their construction sites (lines 42-48 of each file). -/
inductive Material where
  | MeshNormalMaterial (morphTargets skinning : Bool)
  | MeshDepthMaterial (depthPacking : DepthPacking) (morphTargets skinning : Bool)
  deriving DecidableEq, Repr

/-- The result of one delegated scene draw into a surface: fully determined
by the configured scene, camera, override material and clear settings.
Modelled from the spec: the auxiliary pass is a pure producer that
recomputes its output from the scene each call. -/
structure DrawResult where
  overrideMaterial : Material
  clearColor : Nat
  clearAlpha : ℚ
  scene : Option Nat
  camera : Option Nat
  deriving DecidableEq, Repr

/-- A `WebGLRenderTarget`: dimensions, texture parameters, and abstract
contents (the last draw result written into it, `none` when untouched). -/
structure WebGLRenderTarget where
  width : ℚ
  height : ℚ
  minFilter : TextureFilter
  magFilter : TextureFilter
  format : Option TextureFormat
  textureName : String
  generateMipmaps : Bool
  contents : Option DrawResult
  deriving DecidableEq, Repr

/-- `new WebGLRenderTarget(width, height, opts)`: three.js texture defaults
are `generateMipmaps = true` and an empty name; contents start untouched. -/
def WebGLRenderTarget.create (width height : ℚ) (minFilter magFilter : TextureFilter)
    (format : Option TextureFormat) : WebGLRenderTarget :=
  { width := width, height := height, minFilter := minFilter, magFilter := magFilter,
    format := format, textureName := "", generateMipmaps := true, contents := none }

/-- `WebGLRenderTarget.setSize(width, height)`: updates the dimensions. -/
def WebGLRenderTarget.setSize (t : WebGLRenderTarget) (width height : ℚ) :
    WebGLRenderTarget :=
  { t with width := width, height := height }

/-- The configuration handed to the `RenderPass` at construction
(lines 42-50 of each file): scene, camera, override material, clear color
and clear alpha.  Scene and camera are opaque references; `none` models a
missing (null/undefined) reference. -/
structure RenderPassCfg where
  scene : Option Nat
  camera : Option Nat
  overrideMaterial : Material
  clearColor : Nat
  clearAlpha : ℚ
  deriving DecidableEq, Repr

/-- The state of a `NormalPass` / `DepthPass` instance.  Both classes have
identical fields; they differ only in the constants their constructors
store.  `renderToScreen` is contributed by the external `Pass` base class
(modelled from the spec: a mutable flag settable by the owning scheduler). -/
structure AuxPass where
  name : String
  needsSwap : Bool
  renderToScreen : Bool
  renderPass : RenderPassCfg
  renderTarget : WebGLRenderTarget
  resolution : ℚ × ℚ
  resolutionScale : ℚ
  deriving DecidableEq, Repr

/-- The options object accepted by both constructors:
`{resolutionScale?, renderTarget?}`. -/
structure PassOptions where
  resolutionScale : Option ℚ
  renderTarget : Option WebGLRenderTarget
  deriving DecidableEq, Repr

/-- `NormalPass` constructor (NormalPass.js lines 29-90): installs a
`MeshNormalMaterial({morphTargets, skinning})` override with clear color
`0x7777ff` and clear alpha 1, adopts `options.renderTarget` when given and
otherwise creates a 1×1 linear-filtered `RGBFormat` target named
"NormalPass.Target" with mipmaps off; `resolution` starts at `(0, 0)`
(a fresh `Vector2()`), and `resolutionScale` defaults to 0.5. -/
def NormalPass.construct (scene camera : Option Nat) (options : PassOptions) : AuxPass :=
  { name := "NormalPass"
    needsSwap := false
    renderToScreen := false
    renderPass :=
      { scene := scene, camera := camera,
        overrideMaterial := Material.MeshNormalMaterial true true,
        clearColor := 0x7777ff, clearAlpha := 1 }
    renderTarget :=
      match options.renderTarget with
      | some t => t
      | none =>
          { WebGLRenderTarget.create 1 1 TextureFilter.LinearFilter
              TextureFilter.LinearFilter (some TextureFormat.RGBFormat) with
            textureName := "NormalPass.Target", generateMipmaps := false }
    resolution := (0, 0)
    resolutionScale :=
      match options.resolutionScale with
      | some s => s
      | none => 1 / 2 }

/-- `DepthPass` constructor (unnamed file lines 29-90): installs a
`MeshDepthMaterial({depthPacking: RGBADepthPacking, morphTargets, skinning})`
override with clear color `0xffffff` (white) and clear alpha 1, adopts
`options.renderTarget` when given and otherwise creates a 1×1
linear-filtered target (default format) named "DepthPass.Target" with
mipmaps off; `resolution` starts at `(0, 0)`, `resolutionScale` defaults
to 0.5. -/
def DepthPass.construct (scene camera : Option Nat) (options : PassOptions) : AuxPass :=
  { name := "DepthPass"
    needsSwap := false
    renderToScreen := false
    renderPass :=
      { scene := scene, camera := camera,
        overrideMaterial :=
          Material.MeshDepthMaterial DepthPacking.RGBADepthPacking true true,
        clearColor := 0xffffff, clearAlpha := 1 }
    renderTarget :=
      match options.renderTarget with
      | some t => t
      | none =>
          { WebGLRenderTarget.create 1 1 TextureFilter.LinearFilter
              TextureFilter.LinearFilter none with
            textureName := "DepthPass.Target", generateMipmaps := false }
    resolution := (0, 0)
    resolutionScale :=
      match options.resolutionScale with
      | some s => s
      | none => 1 / 2 }

/-- The JS constructors never throw; wrapping them in `Except` makes the
absence of construction-time failure a statable fact. -/
def NormalPass.constructE (scene camera : Option Nat) (options : PassOptions) :
    Except String AuxPass :=
  Except.ok (NormalPass.construct scene camera options)

/-- `Except` wrapper for the (non-throwing) `DepthPass` constructor. -/
def DepthPass.constructE (scene camera : Option Nat) (options : PassOptions) :
    Except String AuxPass :=
  Except.ok (DepthPass.construct scene camera options)

/-- `setSize(width, height)` (lines 141-150 of both files, identical text):
stores the unscaled resolution and resizes the render target to
`(max(1, floor(width*scale)), max(1, floor(height*scale)))`. -/
def AuxPass.setSize (p : AuxPass) (width height : ℚ) : AuxPass :=
  { p with
    resolution := (width, height)
    renderTarget :=
      p.renderTarget.setSize
        ((max 1 ⌊width * p.resolutionScale⌋ : ℤ) : ℚ)
        ((max 1 ⌊height * p.resolutionScale⌋ : ℤ) : ℚ) }

/-- `setResolutionScale(scale)` (lines 110-115 of both files, identical
text): stores the scale, then calls `setSize` with the remembered
resolution. -/
def AuxPass.setResolutionScale (p : AuxPass) (scale : ℚ) : AuxPass :=
  AuxPass.setSize { p with resolutionScale := scale } p.resolution.1 p.resolution.2

/-- `getResolutionScale()` (lines 94-98 of both files). -/
def AuxPass.getResolutionScale (p : AuxPass) : ℚ :=
  p.resolutionScale

/-- The call issued to `this.renderPass.render(renderer, renderTarget,
renderTarget)`: the renderer handle and the chosen color/depth targets
(`none` is the display-surface sentinel). -/
structure DrawCall where
  renderer : Nat
  colorTarget : Option WebGLRenderTarget
  depthTarget : Option WebGLRenderTarget
  deriving DecidableEq, Repr

/-- The draw result the pass's configured `RenderPass` produces. -/
def AuxPass.drawResult (p : AuxPass) : DrawResult :=
  { overrideMaterial := p.renderPass.overrideMaterial
    clearColor := p.renderPass.clearColor
    clearAlpha := p.renderPass.clearAlpha
    scene := p.renderPass.scene
    camera := p.renderPass.camera }

/-- `render(renderer, inputBuffer, outputBuffer, delta, stencilTest)`
(lines 127-132 of both files, identical text): picks
`renderToScreen ? null : this.renderTarget` and delegates to
`this.renderPass.render(renderer, renderTarget, renderTarget)`.
The delegate's effect is Modelled from the spec: `RenderPass.js` is not
among the given sources; per the spec the delegate renders the configured
scene/camera/override-material combination into the given target, clearing
first, and a `null` target means the display surface.  Returns the updated
pass state, the updated screen surface, and the issued call. -/
def AuxPass.render (p : AuxPass) (screen : Option DrawResult)
    (renderer inputBuffer outputBuffer : Nat) (delta : ℚ) (stencilTest : Bool) :
    AuxPass × Option DrawResult × DrawCall :=
  let renderTarget := if p.renderToScreen then none else some p.renderTarget
  let call : DrawCall :=
    { renderer := renderer, colorTarget := renderTarget, depthTarget := renderTarget }
  match renderTarget with
  | none => (p, some p.drawResult, call)
  | some _ =>
      ({ p with renderTarget := { p.renderTarget with contents := some p.drawResult } },
        screen, call)

/-- One externally invokable operation on a pass, for stating invariants
over arbitrary call sequences. -/
inductive PassOp where
  | setSize (width height : ℚ)
  | setResolutionScale (scale : ℚ)
  | setRenderToScreen (flag : Bool)
  | render (screen : Option DrawResult) (renderer inputBuffer outputBuffer : Nat)
      (delta : ℚ) (stencilTest : Bool)
  deriving Repr

/-- Apply one operation to the pass state. -/
def AuxPass.applyOp (p : AuxPass) : PassOp → AuxPass
  | PassOp.setSize w h => p.setSize w h
  | PassOp.setResolutionScale s => p.setResolutionScale s
  | PassOp.setRenderToScreen b => { p with renderToScreen := b }
  | PassOp.render screen r i o d st => (p.render screen r i o d st).1

/-- Apply a sequence of operations to the pass state. -/
def AuxPass.applyOps (p : AuxPass) (ops : List PassOp) : AuxPass :=
  ops.foldl AuxPass.applyOp p

/-- Helper: no single operation changes the `needsSwap` field. -/
theorem AuxPass.applyOp_needsSwap (p : AuxPass) (op : PassOp) :
    (p.applyOp op).needsSwap = p.needsSwap := by
  cases op with
  | render screen r i o d st =>
      simp only [AuxPass.applyOp, AuxPass.render]
      by_cases hb : p.renderToScreen <;> simp [hb]
  | setSize w h => rfl
  | setResolutionScale s => rfl
  | setRenderToScreen b => rfl

/-- Helper: no sequence of operations changes the `needsSwap` field. -/
theorem AuxPass.applyOps_needsSwap (p : AuxPass) (ops : List PassOp) :
    (p.applyOps ops).needsSwap = p.needsSwap := by
  induction ops generalizing p with
  | nil => rfl
  | cons op rest ih =>
      calc (p.applyOps (op :: rest)).needsSwap
          = ((p.applyOp op).applyOps rest).needsSwap := rfl
        _ = (p.applyOp op).needsSwap := ih (p.applyOp op)
        _ = p.needsSwap := AuxPass.applyOp_needsSwap p op

/-- C1: for every pass whose stored scale is positive and all positive
width and height, `setSize(width, height)` leaves the render target with
dimensions `(max(1, floor(width*scale)), max(1, floor(height*scale)))`. -/
theorem setSize_target_dims (p : AuxPass) (w h : ℚ) (hw : 0 < w) (hh : 0 < h)
    (hs : 0 < p.resolutionScale) :
    (p.setSize w h).renderTarget.width = ((max 1 ⌊w * p.resolutionScale⌋ : ℤ) : ℚ) ∧
    (p.setSize w h).renderTarget.height = ((max 1 ⌊h * p.resolutionScale⌋ : ℤ) : ℚ) :=
  ⟨rfl, rfl⟩

/-- C1 witness: a default `DepthPass` has scale 0.5, and `setSize(1, 1)`
yields target dimensions `(1, 1)` (the floor 0 is clamped up to 1). -/
theorem setSize_target_dims_witness :
    ((DepthPass.construct (some 0) (some 0) ⟨none, none⟩).setSize 1 1).renderTarget.width = 1 ∧
    ((DepthPass.construct (some 0) (some 0) ⟨none, none⟩).setSize 1 1).renderTarget.height = 1 := by
  have h := setSize_target_dims (DepthPass.construct (some 0) (some 0) ⟨none, none⟩) 1 1
    (by norm_num) (by norm_num) (by norm_num [DepthPass.construct])
  refine ⟨h.1.trans ?_, h.2.trans ?_⟩ <;> norm_num [DepthPass.construct]

/-- C2: `setSize(w, h)` with scale `s1` followed by `setResolutionScale(s2)`
yields the same target dimensions as a pass constructed with scale `s2` on
which only `setSize(w, h)` is called, for both pass classes. -/
theorem scale_change_rederives_size (scene camera : Option Nat) (opts : PassOptions)
    (w h s1 s2 : ℚ) (hw : 0 < w) (hh : 0 < h) (hs1 : 0 < s1) (hs2 : 0 < s2) :
    (((DepthPass.construct scene camera { opts with resolutionScale := some s1 }).setSize w h).setResolutionScale s2).renderTarget.width
      = ((DepthPass.construct scene camera { opts with resolutionScale := some s2 }).setSize w h).renderTarget.width ∧
    (((DepthPass.construct scene camera { opts with resolutionScale := some s1 }).setSize w h).setResolutionScale s2).renderTarget.height
      = ((DepthPass.construct scene camera { opts with resolutionScale := some s2 }).setSize w h).renderTarget.height ∧
    (((NormalPass.construct scene camera { opts with resolutionScale := some s1 }).setSize w h).setResolutionScale s2).renderTarget.width
      = ((NormalPass.construct scene camera { opts with resolutionScale := some s2 }).setSize w h).renderTarget.width ∧
    (((NormalPass.construct scene camera { opts with resolutionScale := some s1 }).setSize w h).setResolutionScale s2).renderTarget.height
      = ((NormalPass.construct scene camera { opts with resolutionScale := some s2 }).setSize w h).renderTarget.height :=
  ⟨rfl, rfl, rfl, rfl⟩

/-- C2 witness: `setSize(800, 600)` at scale 1 then `setResolutionScale(0.25)`
matches constructing with scale 0.25 and calling `setSize(800, 600)`, and
both give a 200×150 target. -/
theorem scale_change_rederives_size_witness :
    (((DepthPass.construct (some 0) (some 0) { resolutionScale := some 1, renderTarget := none }).setSize 800 600).setResolutionScale (1/4)).renderTarget.width
      = ((DepthPass.construct (some 0) (some 0) { resolutionScale := some (1/4), renderTarget := none }).setSize 800 600).renderTarget.width ∧
    ((DepthPass.construct (some 0) (some 0) { resolutionScale := some (1/4), renderTarget := none }).setSize 800 600).renderTarget.width = 200 ∧
    ((DepthPass.construct (some 0) (some 0) { resolutionScale := some (1/4), renderTarget := none }).setSize 800 600).renderTarget.height = 150 := by
  have h := scale_change_rederives_size (some 0) (some 0) ⟨none, none⟩ 800 600 1 (1/4)
    (by norm_num) (by norm_num) (by norm_num) (by norm_num)
  refine ⟨h.1, ?_, ?_⟩ <;>
    norm_num [DepthPass.construct, AuxPass.setSize, WebGLRenderTarget.setSize]

/-- C3: when `renderToScreen` is true, `render` issues the delegated draw
with the display-surface sentinel (`null` color and depth target) and the
pass state, its private render target included, is unchanged. -/
theorem renderToScreen_uses_null_target (p : AuxPass) (screen : Option DrawResult)
    (r i o : Nat) (d : ℚ) (st : Bool) (hrs : p.renderToScreen = true) :
    (p.render screen r i o d st).2.2.colorTarget = none ∧
    (p.render screen r i o d st).2.2.depthTarget = none ∧
    (p.render screen r i o d st).1 = p := by
  simp [AuxPass.render, hrs]

/-- C3 witness: a default `NormalPass` with `renderToScreen` set issues a
null-target draw and keeps its state. -/
theorem renderToScreen_uses_null_target_witness :
    (({ NormalPass.construct (some 0) (some 0) ⟨none, none⟩ with renderToScreen := true }).render none 0 1 2 0 false).2.2.colorTarget = none ∧
    (({ NormalPass.construct (some 0) (some 0) ⟨none, none⟩ with renderToScreen := true }).render none 0 1 2 0 false).2.2.depthTarget = none ∧
    (({ NormalPass.construct (some 0) (some 0) ⟨none, none⟩ with renderToScreen := true }).render none 0 1 2 0 false).1
      = { NormalPass.construct (some 0) (some 0) ⟨none, none⟩ with renderToScreen := true } :=
  renderToScreen_uses_null_target _ none 0 1 2 0 false rfl

/-- C4: `render` does not depend on `inputBuffer`, `outputBuffer`,
`deltaTime` or `stencilTestActive`: for any two values of each, the
resulting pass state, screen surface and delegated draw call coincide. -/
theorem render_ignores_input_output_buffers (p : AuxPass) (screen : Option DrawResult)
    (r i1 o1 i2 o2 : Nat) (d1 d2 : ℚ) (st1 st2 : Bool) :
    p.render screen r i1 o1 d1 st1 = p.render screen r i2 o2 d2 st2 :=
  rfl

/-- C5 counterexample: constructing a `DepthPass` with resolutionScale −1
(and a `NormalPass` with scale 0 and missing scene/camera references)
succeeds — no construction-time error is raised. -/
theorem constructE_succeeds_on_invalid_args :
    (DepthPass.constructE (some 0) (some 0) ⟨some (-1), none⟩).isOk = true ∧
    (NormalPass.constructE none none ⟨some 0, none⟩).isOk = true :=
  ⟨rfl, rfl⟩

/-- C5 amended: constructing a pass with a non-positive resolutionScale or
missing scene/camera references succeeds without error; the scale and the
references are stored verbatim, with no validation at construction time. -/
theorem construct_accepts_invalid_args (scene camera : Option Nat) (s : ℚ)
    (hs : s ≤ 0) (t : Option WebGLRenderTarget) :
    (DepthPass.constructE scene camera ⟨some s, t⟩).isOk = true ∧
    (NormalPass.constructE scene camera ⟨some s, t⟩).isOk = true ∧
    (DepthPass.construct scene camera ⟨some s, t⟩).resolutionScale = s ∧
    (NormalPass.construct scene camera ⟨some s, t⟩).resolutionScale = s ∧
    (DepthPass.construct scene camera ⟨some s, t⟩).renderPass.scene = scene ∧
    (DepthPass.construct scene camera ⟨some s, t⟩).renderPass.camera = camera :=
  ⟨rfl, rfl, rfl, rfl, rfl, rfl⟩

/-- C5 amended witness: scale −1 with absent scene and camera. -/
theorem construct_accepts_invalid_args_witness :
    (DepthPass.constructE none none ⟨some (-1), none⟩).isOk = true ∧
    (NormalPass.constructE none none ⟨some (-1), none⟩).isOk = true ∧
    (DepthPass.construct none none ⟨some (-1), none⟩).resolutionScale = -1 ∧
    (NormalPass.construct none none ⟨some (-1), none⟩).resolutionScale = -1 ∧
    (DepthPass.construct none none ⟨some (-1), none⟩).renderPass.scene = none ∧
    (DepthPass.construct none none ⟨some (-1), none⟩).renderPass.camera = none :=
  construct_accepts_invalid_args none none (-1) (by norm_num) none

/-- C6: for both pass classes, with any construction options and any
sequence of `setSize`, `setResolutionScale`, `renderToScreen` changes and
`render` calls, the `needsSwap` field stays false. -/
theorem needsSwap_always_false (scene camera : Option Nat) (opts : PassOptions)
    (ops : List PassOp) :
    ((DepthPass.construct scene camera opts).applyOps ops).needsSwap = false ∧
    ((NormalPass.construct scene camera opts).applyOps ops).needsSwap = false :=
  ⟨(AuxPass.applyOps_needsSwap _ ops).trans rfl,
   (AuxPass.applyOps_needsSwap _ ops).trans rfl⟩

/-- C7: a `DepthPass` constructed with default options has resolutionScale
0.5; after `setSize(800, 600)` its target is 400×300; its clear sentinel is
white (`0xffffff`) with clear alpha 1 and its override material uses
`RGBADepthPacking`. -/
theorem depthPass_default_scenario :
    (DepthPass.construct (some 0) (some 0) ⟨none, none⟩).resolutionScale = 1 / 2 ∧
    ((DepthPass.construct (some 0) (some 0) ⟨none, none⟩).setSize 800 600).renderTarget.width = 400 ∧
    ((DepthPass.construct (some 0) (some 0) ⟨none, none⟩).setSize 800 600).renderTarget.height = 300 ∧
    (DepthPass.construct (some 0) (some 0) ⟨none, none⟩).renderPass.clearColor = 0xffffff ∧
    (DepthPass.construct (some 0) (some 0) ⟨none, none⟩).renderPass.clearAlpha = 1 ∧
    (DepthPass.construct (some 0) (some 0) ⟨none, none⟩).renderPass.overrideMaterial
      = Material.MeshDepthMaterial DepthPacking.RGBADepthPacking true true := by
  refine ⟨rfl, ?_, ?_, rfl, rfl, rfl⟩ <;>
    norm_num [DepthPass.construct, AuxPass.setSize, WebGLRenderTarget.setSize]

/-- C8: for every positive width and height, calling `setSize(w, h)` twice
in a row leaves the pass in exactly the state after the first call. -/
theorem setSize_idempotent (p : AuxPass) (w h : ℚ) (hw : 0 < w) (hh : 0 < h) :
    (p.setSize w h).setSize w h = p.setSize w h :=
  rfl

/-- C8 witness: repeating `setSize(800, 600)` on a default `NormalPass`. -/
theorem setSize_idempotent_witness :
    ((NormalPass.construct (some 0) (some 0) ⟨none, none⟩).setSize 800 600).setSize 800 600
      = (NormalPass.construct (some 0) (some 0) ⟨none, none⟩).setSize 800 600 :=
  setSize_idempotent (NormalPass.construct (some 0) (some 0) ⟨none, none⟩) 800 600
    (by norm_num) (by norm_num)

/-- C9: `setResolutionScale(s)` on a freshly constructed pass, before any
`setSize`, resizes the render target to 1×1 — the remembered base
resolution is still `(0, 0)` — and this also overwrites the dimensions of a
caller-supplied external render target. -/
theorem setResolutionScale_fresh_resizes_to_one (scene camera : Option Nat)
    (opts : PassOptions) (s : ℚ) (t : WebGLRenderTarget) (oscale : Option ℚ) :
    ((DepthPass.construct scene camera opts).setResolutionScale s).renderTarget.width = 1 ∧
    ((DepthPass.construct scene camera opts).setResolutionScale s).renderTarget.height = 1 ∧
    ((NormalPass.construct scene camera opts).setResolutionScale s).renderTarget.width = 1 ∧
    ((NormalPass.construct scene camera opts).setResolutionScale s).renderTarget.height = 1 ∧
    ((DepthPass.construct scene camera ⟨oscale, some t⟩).setResolutionScale s).renderTarget.width = 1 ∧
    ((DepthPass.construct scene camera ⟨oscale, some t⟩).setResolutionScale s).renderTarget.height = 1 := by
  simp [DepthPass.construct, NormalPass.construct, AuxPass.setResolutionScale,
    AuxPass.setSize, WebGLRenderTarget.setSize]

/-- C10: a render target supplied by the caller at construction is adopted
unchanged — every one of its fields (dimensions, filters, format, texture
name, mipmap flag, contents) is exactly as supplied, for both classes. -/
theorem external_target_adopted_unchanged (scene camera : Option Nat)
    (oscale : Option ℚ) (t : WebGLRenderTarget) :
    (NormalPass.construct scene camera ⟨oscale, some t⟩).renderTarget = t ∧
    (DepthPass.construct scene camera ⟨oscale, some t⟩).renderTarget = t :=
  ⟨rfl, rfl⟩
